import Mathlib

/-!
Verification of the region-generation pipeline in scripts/generate_regions.py.

The script is a single-pass batch job: fetch country records, validate and
filter them, optionally fetch administrative subdivisions for one prioritized
country (with a hardcoded fallback table), validate the merged region list and
assemble the output structure.

Modelling conventions:
* Python floats are modelled as rationals; the only irrational computation,
  the square root inside calculate_radius, is modelled over the reals.
* Python dicts coming from the wire are modelled as structures of optional
  fields; a value that is not a dict at all is the nondict constructor.
  A field value that raises on float conversion is observationally identical
  to a missing or out-of-range one (both hit the same skip branch), so both
  are represented through the optional field.
* The two GeoNames endpoints are modelled as oracle parameters; ApiOutcome
  distinguishes a returned value from a raised exception, mirroring the
  try/except structure of get_country_states.
* Wall-clock time (the generated_at metadata field) is passed in as a string
  parameter.
* Python list.sort is stable; it is modelled by insertion sort, which is also
  stable, so for the total preorders used here both produce the same list.
-/

/-- Python str.strip with no argument: drop leading and trailing whitespace. -/
def pyStrip (s : String) : String :=
  String.mk (((s.data.dropWhile Char.isWhitespace).reverse.dropWhile Char.isWhitespace).reverse)

/-- Python str.lower for the character ranges used here. -/
def pyLower (s : String) : String := String.mk (s.data.map Char.toLower)

/-- Python str.startswith. -/
def pyStartsWith (s pre : String) : Bool := pre.data.isPrefixOf s.data

/-- Lexicographic order on code points, the order Python uses on strings. -/
def charListLE : List Char → List Char → Bool
  | [], _ => true
  | _ :: _, [] => false
  | a :: as, b :: bs =>
    if a.toNat < b.toNat then true
    else if b.toNat < a.toNat then false
    else charListLE as bs

/-- The strict form of the code-point order. -/
def charListLT : List Char → List Char → Bool
  | [], [] => false
  | [], _ :: _ => true
  | _ :: _, [] => false
  | a :: as, b :: bs =>
    if a.toNat < b.toNat then true
    else if b.toNat < a.toNat then false
    else charListLT as bs

/-- Python string comparison, at most. -/
def pyStrLE (a b : String) : Bool := charListLE a.data b.data

/-- Python string comparison, strictly below. -/
def pyStrLT (a b : String) : Bool := charListLT a.data b.data

/-- Python str.title for the character ranges used here: the first letter of
every alphabetic run is uppercased, subsequent letters lowercased. -/
def pyTitle (s : String) : String :=
  String.mk (s.data.foldl
    (fun (acc : List Char × Bool) c =>
      if c.isAlpha then
        (acc.1 ++ [if acc.2 then c.toLower else c.toUpper], true)
      else
        (acc.1 ++ [c], false))
    ([], false)).1

/-- validate_coordinates: inclusive range checks on latitude and longitude. -/
def validate_coordinates (lat lng : ℚ) : Bool :=
  decide (-90 ≤ lat) && decide (lat ≤ 90) && decide (-180 ≤ lng) && decide (lng ≤ 180)

/-- get_continent_name: map API region/subregion strings to continent names. -/
def get_continent_name (region subregion : String) : String :=
  if region = "" then "Unknown"
  else if region = "Africa" then "Africa"
  else if region = "Americas" then
    (if subregion = "Northern America" ∨ subregion = "Central America" ∨ subregion = "Caribbean"
      then "North America" else "South America")
  else if region = "Asia" then "Asia"
  else if region = "Europe" then "Europe"
  else if region = "Oceania" then "Oceania"
  else "Unknown"

/-- One country record from the REST Countries API.  name_common is the value
of name.common when the name sub-dict is present; region, subregion and cca2
default to the empty string when absent, mirroring dict.get with default. -/
structure CountryRecord where
  name_common : Option String
  latlng : Option (List ℚ)
  area : Option ℚ
  region : Option String
  subregion : Option String
  cca2 : Option String
deriving DecidableEq

/-- An element of the fetched countries list: either a dict or some other
JSON value (rejected by validate_country_structure). -/
inductive CountryEntry where
  | dict (c : CountryRecord)
  | nondict
deriving DecidableEq

/-- extract_country_name: the common name, trimmed; absent or blank is None. -/
def extract_country_name (c : CountryRecord) : Option String :=
  match c.name_common with
  | none => none
  | some s =>
    let t := pyStrip s
    if t = "" then none else some t

/-- extract_coordinates: latlng must be a two-element numeric list whose
values pass validate_coordinates. -/
def extract_coordinates (c : CountryRecord) : Option (ℚ × ℚ) :=
  match c.latlng with
  | some [lat, lng] => if validate_coordinates lat lng then some (lat, lng) else none
  | _ => none

/-- extract_area: the area clamped to be non-negative, zero when absent. -/
def extract_area (c : CountryRecord) : ℚ :=
  match c.area with
  | some a => max 0 a
  | none => 0

/-- calculate_radius: display radius bucket derived from the country area,
assuming a circular footprint. -/
noncomputable def calculate_radius (area_km2 : ℚ) : ℚ :=
  if area_km2 ≤ 0 then 2
  else
    let radius_km := Real.sqrt ((area_km2 : ℝ) / Real.pi)
    if radius_km < 50 then 2
    else if radius_km < 200 then 4
    else if radius_km < 500 then 8
    else if radius_km < 1000 then 12
    else 20

/-- The fixed set of globally major countries that are always included. -/
def major_countries : List String :=
  ["United States", "Canada", "Mexico", "Brazil", "Argentina", "Chile",
   "United Kingdom", "France", "Germany", "Italy", "Spain", "Russia",
   "China", "Japan", "India", "Australia", "South Korea", "Thailand",
   "Egypt", "South Africa", "Nigeria", "Morocco", "Kenya", "Ghana"]

/-- The fixed allow-list used for the Africa continent. -/
def well_known_african : List String :=
  ["Egypt", "South Africa", "Nigeria", "Morocco", "Kenya", "Ghana",
   "Ethiopia", "Tanzania", "Algeria", "Libya", "Tunisia", "Zimbabwe",
   "Botswana", "Namibia", "Uganda", "Rwanda", "Senegal", "Mali"]

/-- The fixed list of smaller but well-known countries. -/
def well_known_small : List String :=
  ["Singapore", "Switzerland", "Netherlands", "Belgium", "Denmark",
   "Norway", "Sweden", "Finland", "Ireland", "Portugal", "Austria",
   "Israel", "Lebanon", "Jordan", "Kuwait", "Qatar", "UAE",
   "New Zealand", "Fiji", "Jamaica", "Costa Rica", "Panama"]

/-- is_well_known_country: the deterministic inclusion policy.  An empty name
is rejected up front; major countries are always kept; Africa uses its own
allow-list; elsewhere a country is kept when its area exceeds 10000 or its
name is in the smaller-but-notable list. -/
def is_well_known_country (name continent : String) (area : ℚ) : Bool :=
  if name = "" then false
  else if name ∈ major_countries then true
  else if continent = "Africa" then decide (name ∈ well_known_african)
  else if 10000 < area then true
  else decide (name ∈ well_known_small)

/-- The normalized per-country record produced by process_single_country. -/
structure ProcessedCountry where
  name : String
  lat : ℚ
  lng : ℚ
  area : ℚ
  continent : String
  radius : ℚ
  country_code : String
deriving DecidableEq

/-- process_single_country: validate structure, extract name, coordinates,
area, continent and code, compute the radius and apply the inclusion
policy; any failure yields None. -/
noncomputable def process_single_country (e : CountryEntry) : Option ProcessedCountry :=
  match e with
  | .nondict => none
  | .dict c =>
    match extract_country_name c with
    | none => none
    | some name =>
      match extract_coordinates c with
      | none => none
      | some (lat, lng) =>
        let area := extract_area c
        let region := pyStrip (c.region.getD "")
        let subregion := pyStrip (c.subregion.getD "")
        let continent := get_continent_name region subregion
        let country_code := pyStrip (c.cca2.getD "")
        let radius := calculate_radius area
        if is_well_known_country name continent area then
          some ⟨name, lat, lng, area, continent, radius, country_code⟩
        else none

/-- Classification used by the loop in process_country_data: a rejected record
with a valid name and valid coordinates is counted as filtered rather than
skipped. -/
def counted_as_filtered (e : CountryEntry) : Bool :=
  match e with
  | .nondict => false
  | .dict c => (extract_country_name c).isSome && (extract_coordinates c).isSome

/-- One iteration of the processing loop: append a survivor, or bump the
filtered or skipped counter. -/
noncomputable def processStep (acc : List ProcessedCountry × ℕ × ℕ) (e : CountryEntry) :
    List ProcessedCountry × ℕ × ℕ :=
  match process_single_country e with
  | some p => (acc.1 ++ [p], acc.2.1, acc.2.2)
  | none =>
    if counted_as_filtered e then (acc.1, acc.2.1, acc.2.2 + 1)
    else (acc.1, acc.2.1 + 1, acc.2.2)

/-- The body of the loop in process_country_data, accumulating the processed
list, the skipped count and the filtered count left to right. -/
noncomputable def processLoop (data : List CountryEntry) : List ProcessedCountry × ℕ × ℕ :=
  data.foldl processStep ([], 0, 0)

/-- process_country_data: fatal error on an empty input list, loop over the
records, fatal error when nothing survives. -/
noncomputable def process_country_data (data : List CountryEntry) :
    Except String (List ProcessedCountry) :=
  if data = [] then .error "No countries data provided"
  else
    let r := processLoop data
    if r.1 = [] then .error "No valid countries were processed"
    else .ok r.1

/-- A Region, the unit persisted to output. -/
structure Region where
  lat : ℚ
  lng : ℚ
  name : String
  continent : String
  type : String
  radius : ℚ
deriving DecidableEq

/-- The scan over countries_data inside get_continent_for_country: first dict
entry whose lowercased trimmed common name equals the query wins. -/
def continent_scan (query : String) : List CountryEntry → Option String
  | [] => none
  | CountryEntry.nondict :: rest => continent_scan query rest
  | CountryEntry.dict c :: rest =>
    match c.name_common with
    | none => continent_scan query rest
    | some s =>
      if pyStrip (pyLower s) = query then
        some (get_continent_name (pyStrip (c.region.getD "")) (pyStrip (c.subregion.getD "")))
      else continent_scan query rest

/-- The small fixed continent fallback map in get_continent_for_country. -/
def continent_fallbacks (key : String) : Option String :=
  if key = "japan" then some "Asia"
  else if key = "united states" then some "North America"
  else if key = "canada" then some "North America"
  else if key = "australia" then some "Oceania"
  else if key = "brazil" then some "South America"
  else if key = "germany" then some "Europe"
  else none

/-- get_continent_for_country: exact case-insensitive match against the
country list, then the fixed fallback map, then Unknown. -/
def get_continent_for_country (country_name : String) (countries_data : List CountryEntry) :
    String :=
  if country_name = "" then "Unknown"
  else
    let q := pyStrip (pyLower country_name)
    match continent_scan q countries_data with
    | some c => c
    | none => (continent_fallbacks q).getD "Unknown"

/-- One entry of the hardcoded fallback tables. -/
structure FallbackPlace where
  name : String
  lat : ℚ
  lng : ℚ
deriving DecidableEq

/-- The hardcoded Japan fallback table. -/
def japan_fallback : List FallbackPlace :=
  [⟨"Tokyo", mkRat 356762 10000, mkRat 1396503 10000⟩,
   ⟨"Osaka", mkRat 346937 10000, mkRat 1355023 10000⟩,
   ⟨"Kyoto", mkRat 350116 10000, mkRat 1357681 10000⟩,
   ⟨"Hokkaido", mkRat 430642 10000, mkRat 1413469 10000⟩,
   ⟨"Fukuoka", mkRat 335904 10000, mkRat 1304017 10000⟩,
   ⟨"Hiroshima", mkRat 343853 10000, mkRat 1324553 10000⟩,
   ⟨"Sendai", mkRat 382682 10000, mkRat 1408694 10000⟩,
   ⟨"Nagoya", mkRat 351815 10000, mkRat 1369066 10000⟩,
   ⟨"Sapporo", mkRat 430642 10000, mkRat 1413469 10000⟩,
   ⟨"Kobe", mkRat 346901 10000, mkRat 1351956 10000⟩,
   ⟨"Yokohama", mkRat 354437 10000, mkRat 139638 1000⟩,
   ⟨"Kawasaki", mkRat 355206 10000, mkRat 1397172 10000⟩,
   ⟨"Chiba", mkRat 356074 10000, mkRat 1401065 10000⟩,
   ⟨"Nara", mkRat 346851 10000, mkRat 1358048 10000⟩,
   ⟨"Okinawa", mkRat 262124 10000, mkRat 1276792 10000⟩]

/-- The hardcoded United States fallback table. -/
def united_states_fallback : List FallbackPlace :=
  [⟨"California", mkRat 367783 10000, mkRat (-1194179) 10000⟩,
   ⟨"Texas", mkRat 319686 10000, mkRat (-999018) 10000⟩,
   ⟨"Florida", mkRat 277663 10000, mkRat (-826404) 10000⟩,
   ⟨"New York", mkRat 421657 10000, mkRat (-749481) 10000⟩,
   ⟨"Pennsylvania", mkRat 412033 10000, mkRat (-771945) 10000⟩,
   ⟨"Illinois", mkRat 403363 10000, mkRat (-890022) 10000⟩,
   ⟨"Ohio", mkRat 403888 10000, mkRat (-827649) 10000⟩,
   ⟨"Georgia", mkRat 330406 10000, mkRat (-836431) 10000⟩,
   ⟨"North Carolina", mkRat 356301 10000, mkRat (-798064) 10000⟩,
   ⟨"Michigan", mkRat 433266 10000, mkRat (-845361) 10000⟩,
   ⟨"Virginia", mkRat 374316 10000, mkRat (-786569) 10000⟩,
   ⟨"Washington", mkRat 477511 10000, mkRat (-1207401) 10000⟩,
   ⟨"Arizona", mkRat 340489 10000, mkRat (-1110937) 10000⟩,
   ⟨"Massachusetts", mkRat 424072 10000, mkRat (-713824) 10000⟩,
   ⟨"Colorado", mkRat 395501 10000, mkRat (-1057821) 10000⟩]

/-- The hardcoded Canada fallback table. -/
def canada_fallback : List FallbackPlace :=
  [⟨"Ontario", mkRat 512538 10000, mkRat (-853232) 10000⟩,
   ⟨"Quebec", mkRat 539333 10000, mkRat (-738667) 10000⟩,
   ⟨"British Columbia", mkRat 537267 10000, mkRat (-1276476) 10000⟩,
   ⟨"Alberta", mkRat 539333 10000, mkRat (-1165765) 10000⟩,
   ⟨"Manitoba", mkRat 537609 10000, mkRat (-988139) 10000⟩,
   ⟨"Saskatchewan", mkRat 529399 10000, mkRat (-1064509) 10000⟩,
   ⟨"Nova Scotia", mkRat 44682 1000, mkRat (-637443) 10000⟩,
   ⟨"New Brunswick", mkRat 465653 10000, mkRat (-664619) 10000⟩,
   ⟨"Newfoundland and Labrador", mkRat 531355 10000, mkRat (-576604) 10000⟩,
   ⟨"Prince Edward Island", mkRat 465107 10000, mkRat (-634168) 10000⟩]

/-- The hardcoded Australia fallback table. -/
def australia_fallback : List FallbackPlace :=
  [⟨"New South Wales", mkRat (-312532) 10000, mkRat 1469211 10000⟩,
   ⟨"Victoria", mkRat (-368485) 10000, mkRat 1449631 10000⟩,
   ⟨"Queensland", mkRat (-209176) 10000, mkRat 1427028 10000⟩,
   ⟨"Western Australia", mkRat (-250424) 10000, mkRat 1216417 10000⟩,
   ⟨"South Australia", mkRat (-300002) 10000, mkRat 1362092 10000⟩,
   ⟨"Tasmania", mkRat (-414545) 10000, mkRat 1459707 10000⟩,
   ⟨"Northern Territory", mkRat (-194914) 10000, mkRat 132551 1000⟩,
   ⟨"Australian Capital Territory", mkRat (-354735) 10000, mkRat 1490124 10000⟩]

/-- The hardcoded Brazil fallback table. -/
def brazil_fallback : List FallbackPlace :=
  [⟨"São Paulo", mkRat (-235505) 10000, mkRat (-466333) 10000⟩,
   ⟨"Rio de Janeiro", mkRat (-229068) 10000, mkRat (-431729) 10000⟩,
   ⟨"Minas Gerais", mkRat (-185122) 10000, mkRat (-44555) 1000⟩,
   ⟨"Bahia", mkRat (-125797) 10000, mkRat (-417007) 10000⟩,
   ⟨"Paraná", mkRat (-248932) 10000, mkRat (-514934) 10000⟩,
   ⟨"Rio Grande do Sul", mkRat (-300346) 10000, mkRat (-512177) 10000⟩,
   ⟨"Pernambuco", mkRat (-88137) 10000, mkRat (-369541) 10000⟩,
   ⟨"Ceará", mkRat (-54984) 10000, mkRat (-393206) 10000⟩]

/-- The hardcoded Germany fallback table. -/
def germany_fallback : List FallbackPlace :=
  [⟨"Bavaria", mkRat 490134 10000, mkRat 109576 10000⟩,
   ⟨"North Rhine-Westphalia", mkRat 514332 10000, mkRat 76616 10000⟩,
   ⟨"Baden-Württemberg", mkRat 486616 10000, mkRat 93501 10000⟩,
   ⟨"Lower Saxony", mkRat 526367 10000, mkRat 98451 10000⟩,
   ⟨"Hesse", mkRat 50652 1000, mkRat 91624 10000⟩,
   ⟨"Saxony", mkRat 511045 10000, mkRat 132017 10000⟩,
   ⟨"Rhineland-Palatinate", mkRat 499129 10000, mkRat 7453 1000⟩,
   ⟨"Thuringia", mkRat 509848 10000, mkRat 110299 10000⟩]

/-- The per-country fallback dictionary. -/
def fallback_data (key : String) : Option (List FallbackPlace) :=
  if key = "japan" then some japan_fallback
  else if key = "united states" then some united_states_fallback
  else if key = "canada" then some canada_fallback
  else if key = "australia" then some australia_fallback
  else if key = "brazil" then some brazil_fallback
  else if key = "germany" then some germany_fallback
  else none

/-- get_fallback_regions: look up the table by lowercased trimmed name,
truncate to limit, skip entries with invalid coordinates, and convert to
Regions with fixed radius 3 and type region. -/
def get_fallback_regions (country_name : String) (limit : ℤ) : List Region :=
  if country_name = "" ∨ limit ≤ 0 then []
  else
    match fallback_data (pyStrip (pyLower country_name)) with
    | none => []
    | some tbl =>
      let regions_data := tbl.take limit.toNat
      let continent := get_continent_for_country country_name []
      (regions_data.filter (fun p => validate_coordinates p.lat p.lng)).map
        (fun p => ⟨p.lat, p.lng, p.name ++ ", " ++ pyTitle country_name, continent, "region", 3⟩)

/-- One place object from the subdivisions endpoint; fcode and name default
to the empty string when missing. -/
structure GeoPlace where
  fcode : Option String
  name : Option String
  lat : Option ℚ
  lng : Option ℚ
deriving DecidableEq

/-- An element of the geonames list: a dict or some other JSON value. -/
inductive GeoEntry where
  | dict (p : GeoPlace)
  | nondict
deriving DecidableEq

/-- The fixed set of accepted feature codes. -/
def valid_codes : List String := ["ADM1", "ADM2", "PPLA", "PPLC", "PPLA2", "PPL"]

/-- A filtered subdivision candidate. -/
structure AdminDivision where
  name : String
  lat : ℚ
  lng : ℚ
  type : String
  feature_code : String
deriving DecidableEq

/-- filter_administrative_divisions: keep dict entries with an accepted
feature code, a non-blank name and valid present coordinates. -/
def filter_administrative_divisions (geonames : List GeoEntry) : List AdminDivision :=
  geonames.filterMap (fun e =>
    match e with
    | GeoEntry.nondict => none
    | GeoEntry.dict p =>
      let feature_code := p.fcode.getD ""
      let name := pyStrip (p.name.getD "")
      match p.lat, p.lng with
      | some lat, some lng =>
        if feature_code ∈ valid_codes ∧ name ≠ "" then
          if validate_coordinates lat lng then
            some ⟨name, lat, lng,
              if pyStartsWith feature_code "ADM" then "administrative_division" else "city",
              feature_code⟩
          else none
        else none
      | _, _ => none)

/-- The ranking priority of a feature code; unknown codes rank last. -/
def division_priority (fc : String) : ℕ :=
  if fc = "ADM1" then 1
  else if fc = "PPLA" then 2
  else if fc = "PPLC" then 2
  else if fc = "ADM2" then 3
  else if fc = "PPLA2" then 4
  else if fc = "PPL" then 5
  else 6

/-- The sort order used on candidates: priority first, then name ascending. -/
def divLE (a b : AdminDivision) : Bool :=
  decide (division_priority a.feature_code < division_priority b.feature_code) ||
  (decide (division_priority a.feature_code = division_priority b.feature_code) &&
    pyStrLE a.name b.name)

/-- convert_divisions_to_regions: each division becomes a Region of type
region with fixed radius 3, named division comma country title case. -/
def convert_divisions_to_regions (divisions : List AdminDivision) (country_name : String)
    (countries_data : List CountryEntry) : List Region :=
  let continent := get_continent_for_country country_name countries_data
  divisions.map (fun d =>
    ⟨d.lat, d.lng, d.name ++ ", " ++ pyTitle country_name, continent, "region", 3⟩)

/-- The observable behavior of one external API call: a returned value, or an
exception raised past the call. -/
inductive ApiOutcome (α : Type) where
  | ok (val : α)
  | raise
deriving DecidableEq

/-- get_country_states: resolve the GeoNames id (lookup oracle), fetch the
children (children oracle), filter, check sufficiency against limit over 2
using integer division, rank, truncate and convert; every failure and every
raised exception degrades to the fallback table. -/
def get_country_states (lookup : ApiOutcome (Option String))
    (children : String → ApiOutcome (Option (List GeoEntry)))
    (country_name : String) (limit : ℤ) (countries_data : List CountryEntry) : List Region :=
  if pyStrip country_name = "" ∨ limit ≤ 0 then []
  else
    let cname := pyStrip country_name
    match lookup with
    | ApiOutcome.raise => get_fallback_regions cname limit
    | ApiOutcome.ok none => get_fallback_regions cname limit
    | ApiOutcome.ok (some gid) =>
      match children gid with
      | ApiOutcome.raise => get_fallback_regions cname limit
      | ApiOutcome.ok none => get_fallback_regions cname limit
      | ApiOutcome.ok (some geonames) =>
        if geonames = [] then get_fallback_regions cname limit
        else
          let admin_divisions := filter_administrative_divisions geonames
          if (admin_divisions.length : ℤ) < limit / 2 then
            get_fallback_regions cname limit
          else
            let sorted := List.insertionSort (fun a b => divLE a b = true) admin_divisions
            let selected := sorted.take limit.toNat
            convert_divisions_to_regions selected cname countries_data

/-- A region dict as seen by validate_region_data: every field may be absent;
radius defaults to 3 when absent. -/
structure RawRegion where
  lat : Option ℚ
  lng : Option ℚ
  name : Option String
  continent : Option String
  type : Option String
  radius : Option ℚ
deriving DecidableEq

/-- An element of the list passed to validate_region_data. -/
inductive RawEntry where
  | dict (r : RawRegion)
  | nondict
deriving DecidableEq

/-- The dict form of a fully built Region, as produced by the assembler. -/
def RawEntry.ofRegion (r : Region) : RawEntry :=
  RawEntry.dict ⟨some r.lat, some r.lng, some r.name, some r.continent, some r.type, some r.radius⟩

/-- The per-entry body of validate_region_data: require all five fields,
trim the strings, validate coordinates and non-emptiness, floor the radius
at 1. -/
def validate_one (e : RawEntry) : Option Region :=
  match e with
  | RawEntry.nondict => none
  | RawEntry.dict r =>
    match r.lat, r.lng, r.name, r.continent, r.type with
    | some lat, some lng, some name0, some continent0, some type0 =>
      let name := pyStrip name0
      let continent := pyStrip continent0
      let region_type := pyStrip type0
      let radius := r.radius.getD 3
      if validate_coordinates lat lng ∧ name ≠ "" ∧ continent ≠ "" ∧ region_type ≠ "" then
        some ⟨lat, lng, name, continent, region_type, max 1 radius⟩
      else none
    | _, _, _, _, _ => none

/-- validate_region_data: keep exactly the entries accepted by validate_one. -/
def validate_region_data (regions : List RawEntry) : List Region :=
  regions.filterMap validate_one

/-- The sort order on the final region list: continent, then name. -/
def regionLE (a b : Region) : Bool :=
  pyStrLT a.continent b.continent ||
  (decide (a.continent = b.continent) && pyStrLE a.name b.name)

/-- The optional metadata block of the output. -/
structure Metadata where
  total_regions : ℕ
  country_count : ℕ
  state_count : ℕ
  continents_coverage : List (String × ℕ)
  generated_at : String
  api_source : String
  fallback_regions_used : Bool
deriving DecidableEq

/-- The output structure: the region list plus optional metadata. -/
structure GenResult where
  regions : List Region
  metadata : Option Metadata
deriving DecidableEq

/-- One step of the continents_coverage accumulation: bump the count for the
continent, inserting it at the end on first sight. -/
def add_coverage (acc : List (String × ℕ)) (c : String) : List (String × ℕ) :=
  if (acc.find? (fun p => p.1 = c)).isSome then
    acc.map (fun p => if p.1 = c then (p.1, p.2 + 1) else p)
  else acc ++ [(c, 1)]

/-- The assembly of the final output structure from the validated sorted
region list: the region list plus, when requested, the metadata block with
the counts, the coverage map, the timestamp, the source tag and the flag
recording whether a prioritized country was supplied. -/
def attach_metadata (include_metadata : Bool) (prioritize_country : Option String)
    (now : String) (sorted : List Region) : GenResult :=
  { regions := sorted,
    metadata :=
      if include_metadata then
        some
          { total_regions := sorted.length,
            country_count := (sorted.filter (fun r => r.type = "country")).length,
            state_count := sorted.length - (sorted.filter (fun r => r.type = "country")).length,
            continents_coverage := sorted.foldl (fun acc r => add_coverage acc r.continent) [],
            generated_at := now,
            api_source := "REST Countries API",
            fallback_regions_used := prioritize_country.isSome }
      else none }

/-- generate_regions: substitute the default state limit when below 1,
process the fetched country data, append subdivisions for the prioritized
country when one is given, validate, fail when nothing survives, sort by
continent and name, and optionally attach metadata.  The countries list and
the two GeoNames oracles stand for the network fetches; now stands for the
generation timestamp. -/
noncomputable def generate_regions (countries_data : List CountryEntry)
    (lookup : ApiOutcome (Option String))
    (children : String → ApiOutcome (Option (List GeoEntry)))
    (prioritize_country : Option String) (state_limit : ℤ)
    (include_metadata : Bool) (now : String) : Except String GenResult :=
  let state_limit := if state_limit < 1 then 10 else state_limit
  match process_country_data countries_data with
  | Except.error e => Except.error e
  | Except.ok processed =>
    let regions := processed.map (fun c =>
      ({ lat := c.lat, lng := c.lng, name := c.name, continent := c.continent,
         type := "country", radius := c.radius } : Region))
    let regions :=
      match prioritize_country with
      | some p =>
        if pyStrip p ≠ "" then
          regions ++ get_country_states lookup children (pyStrip p) state_limit countries_data
        else regions
      | none => regions
    let validated := validate_region_data (regions.map RawEntry.ofRegion)
    if validated = [] then Except.error "No valid regions were generated"
    else
      Except.ok (attach_metadata include_metadata prioritize_country now
        (List.insertionSort (fun a b => regionLE a b = true) validated))

/-- validate_arguments of the CLI layer: reject a limit below 1 and a blank
output path. -/
def validate_arguments (limit : ℤ) (output : String) : Bool :=
  decide (1 ≤ limit) && decide (pyStrip output ≠ "")

/-- The radius-bucket boundaries, restated as thresholds on the area: the
radius sqrt of area over pi is below c exactly when the area is below
c squared times pi. -/
theorem calculate_radius_area_iff (a : ℚ) :
    calculate_radius a =
      if a ≤ 0 then 2
      else if (a : ℝ) < 2500 * Real.pi then 2
      else if (a : ℝ) < 40000 * Real.pi then 4
      else if (a : ℝ) < 250000 * Real.pi then 8
      else if (a : ℝ) < 1000000 * Real.pi then 12
      else 20 := by
  have key : ∀ c : ℝ, 0 < c →
      (Real.sqrt ((a : ℝ) / Real.pi) < c ↔ (a : ℝ) < c ^ 2 * Real.pi) := by
    intro c hc
    rw [Real.sqrt_lt' hc, div_lt_iff₀ Real.pi_pos]
  have h50 : (Real.sqrt ((a : ℝ) / Real.pi) < 50) ↔ ((a : ℝ) < 2500 * Real.pi) := by
    rw [key 50 (by norm_num)]; norm_num
  have h200 : (Real.sqrt ((a : ℝ) / Real.pi) < 200) ↔ ((a : ℝ) < 40000 * Real.pi) := by
    rw [key 200 (by norm_num)]; norm_num
  have h500 : (Real.sqrt ((a : ℝ) / Real.pi) < 500) ↔ ((a : ℝ) < 250000 * Real.pi) := by
    rw [key 500 (by norm_num)]; norm_num
  have h1000 : (Real.sqrt ((a : ℝ) / Real.pi) < 1000) ↔ ((a : ℝ) < 1000000 * Real.pi) := by
    rw [key 1000 (by norm_num)]; norm_num
  by_cases h : a ≤ 0
  · simp [calculate_radius, h]
  · simp only [calculate_radius, if_neg h, h50, h200, h500, h1000]

/-- Evaluation of the radius bucket at area zero. -/
theorem calculate_radius_at_0 : calculate_radius 0 = 2 := by
  simp [calculate_radius]

/-- Evaluation of the radius bucket at area 1000. -/
theorem calculate_radius_at_1000 : calculate_radius 1000 = 2 := by
  rw [calculate_radius_area_iff, if_neg (by norm_num),
    if_pos (by push_cast; linarith [Real.pi_gt_three])]

/-- Evaluation of the radius bucket at area 15000. -/
theorem calculate_radius_at_15000 : calculate_radius 15000 = 4 := by
  rw [calculate_radius_area_iff, if_neg (by norm_num),
    if_neg (by push_cast; push_neg; linarith [Real.pi_le_four]),
    if_pos (by push_cast; linarith [Real.pi_gt_three])]

/-- Evaluation of the radius bucket at area 80000. -/
theorem calculate_radius_at_80000 : calculate_radius 80000 = 4 := by
  rw [calculate_radius_area_iff, if_neg (by norm_num),
    if_neg (by push_cast; push_neg; linarith [Real.pi_le_four]),
    if_pos (by push_cast; linarith [Real.pi_gt_three])]

/-- Evaluation of the radius bucket at area 600000. -/
theorem calculate_radius_at_600000 : calculate_radius 600000 = 8 := by
  rw [calculate_radius_area_iff, if_neg (by norm_num),
    if_neg (by push_cast; push_neg; linarith [Real.pi_le_four]),
    if_neg (by push_cast; push_neg; linarith [Real.pi_le_four]),
    if_pos (by push_cast; linarith [Real.pi_gt_three])]

/-- Evaluation of the radius bucket at area 2000000. -/
theorem calculate_radius_at_2000000 : calculate_radius 2000000 = 12 := by
  rw [calculate_radius_area_iff, if_neg (by norm_num),
    if_neg (by push_cast; push_neg; linarith [Real.pi_le_four]),
    if_neg (by push_cast; push_neg; linarith [Real.pi_le_four]),
    if_neg (by push_cast; push_neg; linarith [Real.pi_le_four]),
    if_pos (by push_cast; linarith [Real.pi_gt_three])]

/-- C1 (amended): calculate_radius is a pure function of area returning the
bucket of the radius sqrt of area over pi with exclusive-below boundaries
(below 50 gives 2, below 200 gives 4, below 500 gives 8, below 1000 gives 12,
else 20; area at most 0 gives 2), equivalently with area thresholds 2500 pi,
40000 pi, 250000 pi and 1000000 pi; it maps the area inputs 0, 1000, 15000,
80000, 600000 and 2000000 to the radii 2, 2, 4, 4, 8 and 12 respectively. -/
theorem calculate_radius_bucket_spec :
    (∀ a : ℚ, calculate_radius a =
      if a ≤ 0 then 2
      else if (a : ℝ) < 2500 * Real.pi then 2
      else if (a : ℝ) < 40000 * Real.pi then 4
      else if (a : ℝ) < 250000 * Real.pi then 8
      else if (a : ℝ) < 1000000 * Real.pi then 12
      else 20) ∧
    calculate_radius 0 = 2 ∧ calculate_radius 1000 = 2 ∧ calculate_radius 15000 = 4 ∧
    calculate_radius 80000 = 4 ∧ calculate_radius 600000 = 8 ∧
    calculate_radius 2000000 = 12 :=
  ⟨calculate_radius_area_iff, calculate_radius_at_0, calculate_radius_at_1000,
   calculate_radius_at_15000, calculate_radius_at_80000, calculate_radius_at_600000,
   calculate_radius_at_2000000⟩

/-- C1 counterexample: the claimed example values fail on the code at the
concrete areas 80000, 600000 and 2000000, where the code returns 4, 8 and 12
rather than the claimed 8, 12 and 20. -/
theorem calculate_radius_claim_counterexample :
    calculate_radius 80000 ≠ 8 ∧ calculate_radius 600000 ≠ 12 ∧
    calculate_radius 2000000 ≠ 20 := by
  refine ⟨?_, ?_, ?_⟩
  · rw [calculate_radius_at_80000]; norm_num
  · rw [calculate_radius_at_600000]; norm_num
  · rw [calculate_radius_at_2000000]; norm_num

/-- C3 (amended): for every triple with a non-empty name,
is_well_known_country returns true exactly by the three-stage policy of the
claim (major set, then the Africa allow-list, then area above 10000 or the
smaller-but-notable set); an empty name always returns false; the three
lists have 24, 18 and 22 names. -/
theorem is_well_known_country_policy :
    (∀ (continent : String) (area : ℚ), is_well_known_country "" continent area = false) ∧
    (∀ (name continent : String) (area : ℚ), name ≠ "" →
      (is_well_known_country name continent area = true ↔
        (name ∈ major_countries ∨
         (name ∉ major_countries ∧ continent = "Africa" ∧ name ∈ well_known_african) ∨
         (name ∉ major_countries ∧ continent ≠ "Africa" ∧
           (10000 < area ∨ name ∈ well_known_small))))) ∧
    major_countries.length = 24 ∧ well_known_african.length = 18 ∧
    well_known_small.length = 22 := by
  refine ⟨?_, ?_, rfl, rfl, rfl⟩
  · intro c a
    simp [is_well_known_country]
  · intro name cont area hn
    simp only [is_well_known_country, if_neg hn]
    by_cases hM : name ∈ major_countries
    · simp [hM]
    · by_cases hA : cont = "Africa"
      · simp [hM, hA]
      · by_cases h10 : 10000 < area
        · simp [hM, hA, h10]
        · simp [hM, hA, h10]

/-- C3 witness: the policy equivalence evaluated at the concrete triple
France, Europe, area 0. -/
theorem is_well_known_country_policy_witness :
    is_well_known_country "France" "Europe" 0 = true ↔
      ("France" ∈ major_countries ∨
       ("France" ∉ major_countries ∧ ("Europe" : String) = "Africa" ∧
         "France" ∈ well_known_african) ∨
       ("France" ∉ major_countries ∧ ("Europe" : String) ≠ "Africa" ∧
         ((10000 : ℚ) < 0 ∨ "France" ∈ well_known_small))) :=
  is_well_known_country_policy.2.1 "France" "Europe" 0 (by decide)

/-- C3 counterexample: at the concrete triple with an empty name, continent
Europe and area 20000 the function returns false although the claimed policy
(area above 10000 on a non-Africa continent) would return true. -/
theorem is_well_known_country_claim_counterexample :
    is_well_known_country "" "Europe" 20000 = false ∧
    "" ∉ major_countries ∧ ("Europe" : String) ≠ "Africa" ∧ (10000 : ℚ) < 20000 := by
  decide

/-- C6: every region surviving validate_region_data has latitude in the
inclusive range -90 to 90, longitude in the inclusive range -180 to 180,
non-empty trimmed name, continent and type, and radius floored at 1;
moreover the boundary entries lat -90 and lng 180 are accepted while lat 91
and lng 181 are rejected. -/
theorem validate_region_data_invariant :
    (∀ (entries : List RawEntry) (r : Region), r ∈ validate_region_data entries →
      -90 ≤ r.lat ∧ r.lat ≤ 90 ∧ -180 ≤ r.lng ∧ r.lng ≤ 180 ∧
      r.name ≠ "" ∧ r.continent ≠ "" ∧ r.type ≠ "" ∧ 1 ≤ r.radius) ∧
    validate_region_data
        [RawEntry.dict ⟨some (-90), some 180, some "A", some "Asia", some "country", some 3⟩] =
      [⟨-90, 180, "A", "Asia", "country", 3⟩] ∧
    validate_region_data
        [RawEntry.dict ⟨some 91, some 0, some "A", some "Asia", some "country", some 3⟩] = [] ∧
    validate_region_data
        [RawEntry.dict ⟨some 0, some 181, some "A", some "Asia", some "country", some 3⟩] = [] := by
  refine ⟨?_, by decide, by decide, by decide⟩
  intro entries r hr
  simp only [validate_region_data, List.mem_filterMap] at hr
  obtain ⟨e, _, hv⟩ := hr
  cases e with
  | nondict => simp [validate_one] at hv
  | dict r0 =>
    obtain ⟨lat, lng, name, cont, ty, rad⟩ := r0
    cases lat with
    | none => simp [validate_one] at hv
    | some lat =>
      cases lng with
      | none => simp [validate_one] at hv
      | some lng =>
        cases name with
        | none => simp [validate_one] at hv
        | some name =>
          cases cont with
          | none => simp [validate_one] at hv
          | some cont =>
            cases ty with
            | none => simp [validate_one] at hv
            | some ty =>
              simp only [validate_one] at hv
              split at hv
              · rename_i hc
                obtain ⟨hcoord, hname, hcont, hty⟩ := hc
                simp only [validate_coordinates, Bool.and_eq_true, decide_eq_true_eq] at hcoord
                obtain ⟨⟨⟨h1, h2⟩, h3⟩, h4⟩ := hcoord
                obtain rfl : (⟨lat, lng, pyStrip name, pyStrip cont, pyStrip ty,
                    max 1 (rad.getD 3)⟩ : Region) = r := by
                  simpa using hv
                exact ⟨h1, h2, h3, h4, hname, hcont, hty, le_max_left 1 _⟩
              · simp at hv

/-- C6 witness: the invariant evaluated on the member produced by a concrete
accepted boundary entry. -/
theorem validate_region_data_invariant_witness :
    -90 ≤ ((⟨-90, 180, "A", "Asia", "country", 3⟩ : Region)).lat ∧
    ((⟨-90, 180, "A", "Asia", "country", 3⟩ : Region)).lat ≤ 90 ∧
    -180 ≤ ((⟨-90, 180, "A", "Asia", "country", 3⟩ : Region)).lng ∧
    ((⟨-90, 180, "A", "Asia", "country", 3⟩ : Region)).lng ≤ 180 ∧
    ((⟨-90, 180, "A", "Asia", "country", 3⟩ : Region)).name ≠ "" ∧
    ((⟨-90, 180, "A", "Asia", "country", 3⟩ : Region)).continent ≠ "" ∧
    ((⟨-90, 180, "A", "Asia", "country", 3⟩ : Region)).type ≠ "" ∧
    1 ≤ ((⟨-90, 180, "A", "Asia", "country", 3⟩ : Region)).radius :=
  validate_region_data_invariant.1
    [RawEntry.dict ⟨some (-90), some 180, some "A", some "Asia", some "country", some 3⟩]
    ⟨-90, 180, "A", "Asia", "country", 3⟩ (by decide)

/-- The survivors accumulated by the processing loop are exactly the records
process_single_country accepts, in order. -/
theorem processLoop_fst_eq (data : List CountryEntry) :
    ∀ acc : List ProcessedCountry × ℕ × ℕ,
      (data.foldl processStep acc).1 = acc.1 ++ data.filterMap process_single_country := by
  induction data with
  | nil => intro acc; simp
  | cons e es ih =>
    intro acc
    cases h : process_single_country e with
    | some p =>
      simp [processStep, h, ih]
    | none =>
      cases hf : counted_as_filtered e <;> simp [processStep, h, hf, ih]

/-- The skipped counter accumulates on top of its starting value. -/
theorem processLoop_skipped_shift (data : List CountryEntry) :
    ∀ (l : List ProcessedCountry) (s f : ℕ),
      (data.foldl processStep (l, s, f)).2.1 = s + (data.foldl processStep (l, 0, f)).2.1 := by
  induction data with
  | nil => intro l s f; simp
  | cons e es ih =>
    intro l s f
    cases h : process_single_country e with
    | some p =>
      simp only [List.foldl_cons, processStep, h]
      rw [ih, ih (l ++ [p]) 0 f]
    | none =>
      cases hf : counted_as_filtered e <;> simp only [List.foldl_cons, processStep, h, hf] <;>
        simp only [Bool.false_eq_true, if_neg, if_pos, ite_true, ite_false]
      · rw [ih l (s + 1) f, ih l 1 f]
        omega
      · rw [ih, ih l 0 (f + 1)]

/-- A concrete well-formed record used to evaluate the pipeline: Singapore,
with no area field (so the default area 0 applies). -/
def singapore_record : CountryEntry :=
  CountryEntry.dict
    ⟨some "Singapore", some [1, 103], none, some "Asia", some "South-eastern Asia", some "SG"⟩

/-- C5: process_country_data never aborts on a failing record: a rejected
record leaves the survivor list of the remaining records unchanged, and a
rejected record that is not merely filtered bumps the skipped counter by
one; a fatal error is raised exactly when the input list is empty or no
record survives, and otherwise the survivors are returned. -/
theorem process_country_data_skip_and_fatal :
    (∀ (e : CountryEntry) (es : List CountryEntry), process_single_country e = none →
      (processLoop (e :: es)).1 = (processLoop es).1) ∧
    (∀ (e : CountryEntry) (es : List CountryEntry), process_single_country e = none →
      counted_as_filtered e = false →
      (processLoop (e :: es)).2.1 = (processLoop es).2.1 + 1) ∧
    (∀ data : List CountryEntry,
      (∃ msg, process_country_data data = Except.error msg) ↔
        (data = [] ∨ data.filterMap process_single_country = [])) ∧
    (∀ data : List CountryEntry, data ≠ [] → data.filterMap process_single_country ≠ [] →
      process_country_data data = Except.ok (data.filterMap process_single_country)) := by
  have hfst : ∀ data : List CountryEntry,
      (processLoop data).1 = data.filterMap process_single_country := by
    intro data
    simpa [processLoop] using processLoop_fst_eq data ([], 0, 0)
  refine ⟨?_, ?_, ?_, ?_⟩
  · intro e es he
    rw [hfst, hfst, List.filterMap_cons_none he]
  · intro e es he hf
    simp only [processLoop, List.foldl_cons, processStep, he, hf]
    simp only [Bool.false_eq_true, if_neg, ite_false]
    rw [processLoop_skipped_shift es [] 1 0]
    omega
  · intro data
    by_cases hd : data = []
    · subst hd; simp [process_country_data]
    · by_cases hs : data.filterMap process_single_country = []
      · simp [process_country_data, hd, hfst, hs]
      · simp [process_country_data, hd, hfst, hs]
  · intro data hd hs
    simp [process_country_data, hd, hfst, hs]

/-- C5 witness: the skip behavior evaluated on a concrete malformed record,
and the success case evaluated on the concrete Singapore record. -/
theorem process_country_data_skip_and_fatal_witness :
    (processLoop [CountryEntry.nondict]).1 = (processLoop []).1 ∧
    (processLoop [CountryEntry.nondict]).2.1 = (processLoop []).2.1 + 1 ∧
    process_country_data [singapore_record] =
      Except.ok ([singapore_record].filterMap process_single_country) :=
  ⟨process_country_data_skip_and_fatal.1 CountryEntry.nondict [] rfl,
   process_country_data_skip_and_fatal.2.1 CountryEntry.nondict [] rfl rfl,
   process_country_data_skip_and_fatal.2.2.2 [singapore_record] (by simp) (by decide)⟩

/-- C4: for every input and every oracle behavior (returned failure, empty or
malformed response, raised exception), get_country_states is total and its
result is the empty list, the fallback-table result, or the converted API
result reached only when both endpoints returned successfully; in the model
every exception path of the source is one of the oracle raise branches, all
of which land in the fallback disjunct. -/
theorem get_country_states_never_raises :
    ∀ (lookup : ApiOutcome (Option String))
      (children : String → ApiOutcome (Option (List GeoEntry)))
      (name : String) (limit : ℤ) (data : List CountryEntry),
      get_country_states lookup children name limit data = [] ∨
      get_country_states lookup children name limit data =
        get_fallback_regions (pyStrip name) limit ∨
      ∃ gid gs, lookup = ApiOutcome.ok (some gid) ∧
        children gid = ApiOutcome.ok (some gs) ∧
        get_country_states lookup children name limit data =
          convert_divisions_to_regions
            ((List.insertionSort (fun a b => divLE a b = true)
              (filter_administrative_divisions gs)).take limit.toNat)
            (pyStrip name) data := by
  intro lookup children name limit data
  unfold get_country_states
  by_cases h0 : pyStrip name = "" ∨ limit ≤ 0
  · left; rw [if_pos h0]
  · rw [if_neg h0]
    cases lookup with
    | raise => right; left; rfl
    | ok v =>
      cases v with
      | none => right; left; rfl
      | some gid =>
        cases hc : children gid with
        | raise => right; left; simp [hc]
        | ok w =>
          cases w with
          | none => right; left; simp [hc]
          | some gs =>
            by_cases hg : gs = []
            · right; left; simp [hc, hg]
            · by_cases hlen :
                ((filter_administrative_divisions gs).length : ℤ) < limit / 2
              · right; left; simp [hc, hg, hlen]
              · right; right
                exact ⟨gid, gs, rfl, hc, by simp [hc, hg, hlen]⟩

/-- C2 (amended): when the API path reaches the sufficiency check, the
fallback table is used exactly when the filtered candidate count is strictly
below the integer floor division of limit by 2, not below half of limit. -/
theorem get_country_states_sufficiency :
    ∀ (lookup : ApiOutcome (Option String))
      (children : String → ApiOutcome (Option (List GeoEntry)))
      (name : String) (limit : ℤ) (data : List CountryEntry) (gid : String)
      (gs : List GeoEntry),
      lookup = ApiOutcome.ok (some gid) →
      children gid = ApiOutcome.ok (some gs) →
      gs ≠ [] → pyStrip name ≠ "" → 1 ≤ limit →
      ((((filter_administrative_divisions gs).length : ℤ) < limit / 2 →
        get_country_states lookup children name limit data =
          get_fallback_regions (pyStrip name) limit) ∧
      (¬(((filter_administrative_divisions gs).length : ℤ) < limit / 2) →
        get_country_states lookup children name limit data =
          convert_divisions_to_regions
            ((List.insertionSort (fun a b => divLE a b = true)
              (filter_administrative_divisions gs)).take limit.toNat)
            (pyStrip name) data)) := by
  intro lookup children name limit data gid gs hl hc hg hn hlim
  subst hl
  have h0 : ¬(pyStrip name = "" ∨ limit ≤ 0) := by
    push_neg
    exact ⟨hn, by omega⟩
  constructor
  · intro hlt
    unfold get_country_states
    rw [if_neg h0]
    simp [hc, hg, hlt]
  · intro hge
    unfold get_country_states
    rw [if_neg h0]
    simp [hc, hg, hge]

/-- The concrete two-candidate GeoNames response used in the sufficiency
scenarios. -/
def two_adm1_places : List GeoEntry :=
  [GeoEntry.dict ⟨some "ADM1", some "Aomori", some 40, some 140⟩,
   GeoEntry.dict ⟨some "ADM1", some "Akita", some 39, some 140⟩]

/-- C2 witness: the sufficiency rule evaluated concretely at limit 4 with
two filtered candidates, where the API result is kept. -/
theorem get_country_states_sufficiency_witness :
    get_country_states (ApiOutcome.ok (some "g"))
        (fun _ => ApiOutcome.ok (some two_adm1_places)) "japan" 4 [] =
      convert_divisions_to_regions
        ((List.insertionSort (fun a b => divLE a b = true)
          (filter_administrative_divisions two_adm1_places)).take (4 : ℤ).toNat)
        (pyStrip "japan") [] :=
  (get_country_states_sufficiency (ApiOutcome.ok (some "g"))
      (fun _ => ApiOutcome.ok (some two_adm1_places)) "japan" 4 [] "g" two_adm1_places
      rfl rfl (by decide) (by decide) (by decide)).2 (by decide)

/-- C2 counterexample: at the concrete input limit 5 with two filtered
candidates, two is strictly below half of five, yet the code keeps the API
results instead of the fallback table, because the code compares against the
integer floor division 5 over 2, which is 2. -/
theorem get_country_states_sufficiency_claim_counterexample :
    ((filter_administrative_divisions two_adm1_places).length : ℚ) < (5 : ℚ) / 2 ∧
    get_country_states (ApiOutcome.ok (some "g"))
        (fun _ => ApiOutcome.ok (some two_adm1_places)) "japan" 5 [] ≠
      get_fallback_regions "japan" 5 := by
  have h2 : (filter_administrative_divisions two_adm1_places).length = 2 := by decide
  constructor
  · rw [h2]; norm_num
  · decide

/-- The code-point order on character lists is total. -/
theorem charListLE_total : ∀ a b : List Char, charListLE a b = true ∨ charListLE b a = true := by
  intro a
  induction a with
  | nil => intro b; left; simp [charListLE]
  | cons x xs ih =>
    intro b
    cases b with
    | nil => right; simp [charListLE]
    | cons y ys =>
      by_cases hxy : x.toNat < y.toNat
      · left; simp [charListLE, hxy]
      · by_cases hyx : y.toNat < x.toNat
        · right; simp [charListLE, hyx]
        · cases ih ys with
          | inl h => left; simp [charListLE, hxy, hyx, h]
          | inr h => right; simp [charListLE, hxy, hyx, h]

/-- The code-point order on character lists is transitive. -/
theorem charListLE_trans : ∀ a b c : List Char,
    charListLE a b = true → charListLE b c = true → charListLE a c = true := by
  intro a
  induction a with
  | nil => intro b c _ _; simp [charListLE]
  | cons x xs ih =>
    intro b c hab hbc
    cases b with
    | nil => simp [charListLE] at hab
    | cons y ys =>
      cases c with
      | nil => simp [charListLE] at hbc
      | cons z zs =>
        simp only [charListLE] at hab hbc ⊢
        by_cases hxy : x.toNat < y.toNat
        · by_cases hyz : y.toNat < z.toNat
          · simp [show x.toNat < z.toNat by omega]
          · by_cases hzy : z.toNat < y.toNat
            · simp [hyz, hzy] at hbc
            · simp [show x.toNat < z.toNat by omega]
        · by_cases hyx : y.toNat < x.toNat
          · simp [hxy, hyx] at hab
          · by_cases hyz : y.toNat < z.toNat
            · simp [show x.toNat < z.toNat by omega]
            · by_cases hzy : z.toNat < y.toNat
              · simp [hyz, hzy] at hbc
              · simp only [if_neg (show ¬x.toNat < z.toNat by omega),
                  if_neg (show ¬z.toNat < x.toNat by omega)]
                simp only [if_neg hxy, if_neg hyx] at hab
                simp only [if_neg hyz, if_neg hzy] at hbc
                exact ih ys zs hab hbc

/-- The candidate ranking order is total. -/
theorem divLE_total : ∀ a b : AdminDivision, divLE a b = true ∨ divLE b a = true := by
  intro a b
  simp only [divLE, pyStrLE, Bool.or_eq_true, Bool.and_eq_true, decide_eq_true_eq]
  rcases Nat.lt_trichotomy (division_priority a.feature_code)
      (division_priority b.feature_code) with h | h | h
  · left; left; exact h
  · cases charListLE_total a.name.data b.name.data with
    | inl hs => left; right; exact ⟨h, hs⟩
    | inr hs => right; right; exact ⟨h.symm, hs⟩
  · right; left; exact h

/-- The candidate ranking order is transitive. -/
theorem divLE_trans : ∀ a b c : AdminDivision,
    divLE a b = true → divLE b c = true → divLE a c = true := by
  intro a b c hab hbc
  simp only [divLE, pyStrLE, Bool.or_eq_true, Bool.and_eq_true, decide_eq_true_eq] at hab hbc ⊢
  rcases hab with h1 | ⟨h1, hs1⟩
  · rcases hbc with h2 | ⟨h2, _⟩
    · left; omega
    · left; omega
  · rcases hbc with h2 | ⟨h2, hs2⟩
    · left; omega
    · right; exact ⟨by omega, charListLE_trans _ _ _ hs1 hs2⟩

/-- C7: candidates in the API path are ranked by the feature-code priorities
ADM1 one, PPLA and PPLC two, ADM2 three, PPLA2 four, PPL five, unknown codes
six, ties broken by name in ascending code-point order; the list handed to
conversion is a sorted permutation of the filtered candidates truncated to
the first limit entries. -/
theorem get_country_states_rank_and_truncate :
    division_priority "ADM1" = 1 ∧ division_priority "PPLA" = 2 ∧
    division_priority "PPLC" = 2 ∧ division_priority "ADM2" = 3 ∧
    division_priority "PPLA2" = 4 ∧ division_priority "PPL" = 5 ∧
    (∀ fc : String, fc ∉ valid_codes → division_priority fc = 6) ∧
    (∀ a b : AdminDivision, divLE a b = true ↔
      (division_priority a.feature_code < division_priority b.feature_code ∨
        (division_priority a.feature_code = division_priority b.feature_code ∧
          charListLE a.name.data b.name.data = true))) ∧
    (∀ gs : List GeoEntry,
      (List.insertionSort (fun a b => divLE a b = true)
        (filter_administrative_divisions gs)).Perm (filter_administrative_divisions gs) ∧
      List.Pairwise (fun a b => divLE a b = true)
        (List.insertionSort (fun a b => divLE a b = true)
          (filter_administrative_divisions gs))) ∧
    (∀ (lookup : ApiOutcome (Option String))
       (children : String → ApiOutcome (Option (List GeoEntry)))
       (name : String) (limit : ℤ) (data : List CountryEntry) (gid : String)
       (gs : List GeoEntry),
      lookup = ApiOutcome.ok (some gid) → children gid = ApiOutcome.ok (some gs) →
      gs ≠ [] → pyStrip name ≠ "" → 1 ≤ limit →
      limit / 2 ≤ ((filter_administrative_divisions gs).length : ℤ) →
      get_country_states lookup children name limit data =
        convert_divisions_to_regions
          ((List.insertionSort (fun a b => divLE a b = true)
            (filter_administrative_divisions gs)).take limit.toNat)
          (pyStrip name) data) := by
  refine ⟨rfl, rfl, rfl, rfl, rfl, rfl, ?_, ?_, ?_, ?_⟩
  · intro fc h
    simp only [valid_codes, List.mem_cons, List.not_mem_nil, or_false, not_or] at h
    obtain ⟨h1, h2, h3, h4, h5, h6⟩ := h
    simp [division_priority, h1, h2, h3, h4, h5, h6]
  · intro a b
    simp [divLE, pyStrLE]
  · intro gs
    constructor
    · exact List.perm_insertionSort _ _
    · haveI : IsTotal AdminDivision (fun a b => divLE a b = true) :=
        ⟨fun a b => divLE_total a b⟩
      haveI : IsTrans AdminDivision (fun a b => divLE a b = true) :=
        ⟨fun a b c => divLE_trans a b c⟩
      exact List.sorted_insertionSort _ _
  · intro lookup children name limit data gid gs hl hc hg hn hlim hge
    subst hl
    have h0 : ¬(pyStrip name = "" ∨ limit ≤ 0) := by
      push_neg
      exact ⟨hn, by omega⟩
    have hlt : ¬((filter_administrative_divisions gs).length : ℤ) < limit / 2 := by omega
    unfold get_country_states
    rw [if_neg h0]
    simp [hc, hg, hlt]

/-- C7 witness: the ranking behavior evaluated concretely, for an unknown
feature code and for a concrete two-candidate success path at limit 2. -/
theorem get_country_states_rank_and_truncate_witness :
    division_priority "XXXX" = 6 ∧
    get_country_states (ApiOutcome.ok (some "id2"))
        (fun _ => ApiOutcome.ok (some two_adm1_places)) "germany" 2 [] =
      convert_divisions_to_regions
        ((List.insertionSort (fun a b => divLE a b = true)
          (filter_administrative_divisions two_adm1_places)).take (2 : ℤ).toNat)
        (pyStrip "germany") [] := by
  obtain ⟨-, -, -, -, -, -, hB, -, -, hE⟩ := get_country_states_rank_and_truncate
  exact ⟨hB "XXXX" (by decide),
    hE (ApiOutcome.ok (some "id2")) (fun _ => ApiOutcome.ok (some two_adm1_places))
      "germany" 2 [] "id2" two_adm1_places rfl rfl (by decide) (by decide) (by decide)
      (by decide)⟩

/-- C8: when the lookup step yields no identifier, get_country_states for
japan with limit 5 returns exactly the first five entries of the hardcoded
Japan table in order, each of type region with radius 3 and name of the form
place comma Japan. -/
theorem get_country_states_japan_lookup_miss :
    ∀ (children : String → ApiOutcome (Option (List GeoEntry)))
      (data : List CountryEntry),
      get_country_states (ApiOutcome.ok none) children "japan" 5 data =
        [⟨mkRat 356762 10000, mkRat 1396503 10000, "Tokyo, Japan", "Asia", "region", 3⟩,
         ⟨mkRat 346937 10000, mkRat 1355023 10000, "Osaka, Japan", "Asia", "region", 3⟩,
         ⟨mkRat 350116 10000, mkRat 1357681 10000, "Kyoto, Japan", "Asia", "region", 3⟩,
         ⟨mkRat 430642 10000, mkRat 1413469 10000, "Hokkaido, Japan", "Asia", "region", 3⟩,
         ⟨mkRat 335904 10000, mkRat 1304017 10000, "Fukuoka, Japan", "Asia", "region", 3⟩] ∧
      (get_country_states (ApiOutcome.ok none) children "japan" 5 data).length = 5 ∧
      get_country_states (ApiOutcome.ok none) children "japan" 5 data =
        get_fallback_regions "japan" 5 := by
  intro children data
  refine ⟨rfl, rfl, rfl⟩

/-- C9: a state limit below 1 is silently replaced by the default 10, so the
run proceeds exactly as one invoked with limit 10; the command line layer is
the only place where a limit below 1 is rejected. -/
theorem generate_regions_limit_default :
    (∀ (data : List CountryEntry) (lookup : ApiOutcome (Option String))
       (children : String → ApiOutcome (Option (List GeoEntry)))
       (prio : Option String) (m : Bool) (now : String) (limit : ℤ), limit < 1 →
      generate_regions data lookup children prio limit m now =
        generate_regions data lookup children prio 10 m now) ∧
    (∀ (limit : ℤ) (output : String), limit < 1 →
      validate_arguments limit output = false) := by
  constructor
  · intro data lookup children prio m now limit h
    unfold generate_regions
    rw [if_pos h, if_neg (by norm_num : ¬(10 : ℤ) < 1)]
  · intro limit output h
    have h1 : ¬(1 : ℤ) ≤ limit := by omega
    simp [validate_arguments, h1]

/-- C9 witness: the substitution evaluated at the concrete limit 0, and the
command line rejection at limit 0. -/
theorem generate_regions_limit_default_witness :
    generate_regions [singapore_record] (ApiOutcome.ok none)
        (fun _ => ApiOutcome.raise) (some "japan") 0 true "t" =
      generate_regions [singapore_record] (ApiOutcome.ok none)
        (fun _ => ApiOutcome.raise) (some "japan") 10 true "t" ∧
    validate_arguments 0 "regions_generated.json" = false :=
  ⟨generate_regions_limit_default.1 [singapore_record] (ApiOutcome.ok none)
      (fun _ => ApiOutcome.raise) (some "japan") true "t" 0 (by decide),
   generate_regions_limit_default.2 0 "regions_generated.json" (by decide)⟩

/-- C10: whenever metadata is included, its fallback_regions_used field
records exactly whether a prioritized country was supplied, for every oracle
behavior, so it is independent of whether the fallback table was actually
used or the API path succeeded. -/
theorem generate_regions_metadata_fallback_flag :
    ∀ (data : List CountryEntry) (lookup : ApiOutcome (Option String))
      (children : String → ApiOutcome (Option (List GeoEntry)))
      (prio : Option String) (limit : ℤ) (now : String) (res : GenResult),
      generate_regions data lookup children prio limit true now = Except.ok res →
      res.metadata.map Metadata.fallback_regions_used = some prio.isSome := by
  intro data lookup children prio limit now res hgen
  unfold generate_regions at hgen
  cases hp : process_country_data data with
  | error e =>
    rw [hp] at hgen
    simp at hgen
  | ok processed =>
    rw [hp] at hgen
    dsimp only at hgen
    split_ifs at hgen
    all_goals
      first
      | (simp only [Except.ok.injEq] at hgen
         subst hgen
         rfl)
      | (subst hgen
         rfl)
      | simp at hgen

/-- The result of the concrete Singapore run with metadata, used to witness
the metadata flag claim. -/
def singapore_result : GenResult :=
  { regions := [⟨1, 103, "Singapore", "Asia", "country", 2⟩],
    metadata := some
      { total_regions := 1, country_count := 1, state_count := 0,
        continents_coverage := [("Asia", 1)], generated_at := "t",
        api_source := "REST Countries API", fallback_regions_used := false } }

/-- C10 witness: the flag equality evaluated on a concrete successful run
with no prioritized country. -/
theorem generate_regions_metadata_fallback_flag_witness :
    singapore_result.metadata.map Metadata.fallback_regions_used =
      some (none : Option String).isSome :=
  generate_regions_metadata_fallback_flag [singapore_record] (ApiOutcome.ok none)
    (fun _ => ApiOutcome.raise) none 10 "t" singapore_result (by rfl)
